import Mathlib

/-!
Formal model of the torima branching-narrative engine
(src/torima/main.py and src/torima/data/renderers.py),
shallowly embedded in Lean.

Python dictionaries of scores are modelled as association lists
`List (String × Int)` with first-match lookup (Python dicts have unique
keys, so first-match lookup agrees with dict lookup).  A story document
(a parsed chapter/ending JSON object) is an ordered list of
(scene identifier, scene record) pairs; navigation never inspects the
scene records, so the record type is a parameter `α`.  Wall-clock
seconds (Python floats used only for accumulate-and-compare) are
modelled as rationals.  Python `None` becomes `Option.none`; Python
truthiness of a string is `not s.isEmpty` on `some s`, falsity on
`none`; truthiness of a loaded document is non-emptiness.  A raised
exception (e.g. `int()` on a non-numeric string) is modelled by the
navigation functions returning `Option.none`; `print`ed error messages
are collected in a returned message list.
-/

namespace Torima

/-- Python `scores.get(stat, 0)`: score-dictionary lookup defaulting to 0. -/
def dictGet (m : List (String × Int)) (k : String) : Int :=
  match m.find? (fun p => p.1 == k) with
  | some p => p.2
  | none => 0

/-- Python `scores[stat] = v`: dictionary assignment (replace the entry if the
key is present, else append it). -/
def dictSet : List (String × Int) → String → Int → List (String × Int)
  | [], k, v => [(k, v)]
  | p :: rest, k, v => if p.1 == k then (k, v) :: rest else p :: dictSet rest k v

/-- `GameState.check_requirements` (main.py lines 66-71): every requirement
entry must have `scores.get(stat, 0) >= needed`. -/
def check_requirements (scores requirements : List (String × Int)) : Bool :=
  requirements.all (fun p => decide (p.2 ≤ dictGet scores p.1))

/-- `GameState.update_scores` (main.py lines 61-64): add each delta to the
current value, creating a missing stat at 0. -/
def update_scores (scores score_changes : List (String × Int)) : List (String × Int) :=
  score_changes.foldl (fun acc p => dictSet acc p.1 (dictGet acc p.1 + p.2)) scores

/-- The dictionaries returned by `evaluate_score_check`, `evaluate_checkpoint`
and built from a selected choice (main.py lines 92-95, 98-101, 109-118,
265-268): an optional file to load and an optional scene identifier. -/
structure Destination where
  next_file : Option String
  next_scene : Option String
deriving DecidableEq

/-- One entry of a score_check scene's `conditions` list. -/
structure Condition where
  requirement : List (String × Int)
  next_file : Option String
  next_scene : Option String
deriving DecidableEq

/-- The fields of a scene of type `score_check` read by `evaluate_score_check`. -/
structure ScoreCheckScene where
  conditions : List Condition
  default_file : Option String
  default_scene : Option String
deriving DecidableEq

/-- The fields of a scene of type `checkpoint` read by `evaluate_checkpoint`. -/
structure CheckpointScene where
  requirements : List (String × Int)
  pass_file : Option String
  pass_scene : Option String
  fail_file : Option String
  fail_scene : Option String
deriving DecidableEq

/-- The fields of a choice read by the choice-click handler
(main.py lines 248-268). -/
structure Choice where
  score_change : Option (List (String × Int))
  next_file : Option String
  next_scene : Option String
deriving DecidableEq

/-- `evaluate_score_check` (main.py lines 84-101): scan `conditions` in order,
return the destination of the first whose requirement the scores satisfy
(`next_scene` defaulting to "start"), else the scene's default destination
(again defaulting `next_scene` to "start"). -/
def evaluate_score_check (scores : List (String × Int)) (scene : ScoreCheckScene) :
    Destination :=
  match scene.conditions.find? (fun c => check_requirements scores c.requirement) with
  | some c => { next_file := c.next_file, next_scene := some (c.next_scene.getD "start") }
  | none =>
    { next_file := scene.default_file
      next_scene := some (scene.default_scene.getD "start") }

/-- `evaluate_checkpoint` (main.py lines 103-118): pass destination when the
requirements are satisfied, else fail destination; both `next_scene` fields
default to "start". -/
def evaluate_checkpoint (scores : List (String × Int)) (scene : CheckpointScene) :
    Destination :=
  if check_requirements scores scene.requirements then
    { next_file := scene.pass_file, next_scene := some (scene.pass_scene.getD "start") }
  else
    { next_file := scene.fail_file, next_scene := some (scene.fail_scene.getD "start") }

/-- A parsed story JSON file: ordered mapping from scene identifier to scene
record (Python dicts preserve insertion order; `list(story.keys())[0]` is the
first key).  Navigation never inspects the records, so their type is a
parameter. -/
structure StoryDocument (α : Type) where
  entries : List (String × α)
deriving DecidableEq

/-- The engine state held by `GameState` (main.py lines 52-59).
`current_chapter` is dynamically typed in Python: `navigate_to_scene` stores
the `next_file` string in the cross-file branch and an `int` in the
"chapter_N" branch, hence a sum type here. -/
structure GameState (α : Type) where
  scores : List (String × Int)
  current_story : Option (StoryDocument α)
  current_scene_id : Option String
  current_chapter : String ⊕ Int
  is_in_ending : Bool
deriving DecidableEq

/-- The Content Store collaborator: `load_chapter` resolves
`data/story/chapters/{x}.json` where `{x}` is the Python string formatting of
its (string or int) argument, `load_ending` resolves
`data/story/endings/{x}`.  A missing file yields `none`. -/
structure ContentStore (α : Type) where
  chapters : String → Option (StoryDocument α)
  endings : String → Option (StoryDocument α)

/-- Python truthiness of a loaded story value: `None` and the empty dict are
falsy (`if new_story:` / `if story:` in main.py lines 136, 147). -/
def storyTruthy {α : Type} : Option (StoryDocument α) → Bool
  | none => false
  | some d => !d.entries.isEmpty

/-- Helper for Python `s.split(sep)` with a one-character separator: split a
character list at every occurrence of `c` (adjacent separators produce empty
pieces, as in Python). -/
def splitCharList (c : Char) : List Char → List (List Char)
  | [] => [[]]
  | x :: xs =>
    match splitCharList c xs with
    | [] => [[]]
    | y :: ys => if x == c then [] :: y :: ys else (x :: y) :: ys

/-- Python `s.split(sep)` for a one-character separator, as in
`next_scene.split("_")` (main.py line 145). -/
def pySplit (c : Char) (s : String) : List String :=
  (splitCharList c s.data).map (fun l => ⟨l⟩)

/-- Python `s.startswith(pre)` (main.py line 144). -/
def pyStartsWith (s pre : String) : Bool :=
  pre.data.isPrefixOf s.data

/-- Python `s.endswith(suf)` (main.py line 127). -/
def pyEndsWith (s suf : String) : Bool :=
  suf.data.isSuffixOf s.data

/-- Digit-string accumulator for `pyInt`. -/
def parseDigitsAux : List Char → Nat → Option Nat
  | [], acc => some acc
  | c :: cs, acc =>
    if c.isDigit then parseDigitsAux cs (acc * 10 + (c.toNat - 48)) else none

/-- Python `int(s)` for a plain (optionally negated) decimal literal, as used
on `next_scene.split("_")[1]` (main.py line 145); a non-numeric string
raises `ValueError`, modelled as `none`. -/
def pyInt (s : String) : Option Int :=
  match s.data with
  | [] => none
  | '-' :: rest =>
    match rest with
    | [] => none
    | _ => (parseDigitsAux rest 0).map (fun n => -(n : Int))
  | l => (parseDigitsAux l 0).map (fun n => (n : Int))

/-- The `elif next_scene:` arm of `navigate_to_scene` (main.py lines 141-155),
reached when `next_file` is falsy.  A `next_scene` of the form "chapter_N"
loads chapter `int(N)` (replacing the document and pointing at its first
key); any other non-empty `next_scene` just changes the scene identifier; a
falsy `next_scene` does nothing.  `none` models an uncaught Python exception
(`int()` on a non-numeric suffix). -/
def navigate_scene_only {α : Type} (cs : ContentStore α) (gs : GameState α)
    (ns? : Option String) : Option (GameState α × List String) :=
  match ns? with
  | some ns =>
    if ns.isEmpty then some (gs, [])
    else if pyStartsWith ns "chapter_" then
      match pyInt (((pySplit '_' ns).getD 1 "")) with
      | some n =>
        match cs.chapters (toString n) with
        | some doc =>
          if doc.entries.isEmpty then
            some (gs, ["Chapter " ++ toString n ++ " not found!"])
          else
            match doc.entries.head? with
            | some e =>
              some ({ gs with
                        current_chapter := Sum.inr n
                        current_story := some doc
                        current_scene_id := some e.1
                        is_in_ending := false }, [])
            | none => none
        | none => some (gs, ["Chapter " ++ toString n ++ " not found!"])
      | none => none
    else some ({ gs with current_scene_id := some ns }, [])
  | none => some (gs, [])

/-- `navigate_to_scene` (main.py lines 120-155).  When `next_file` is truthy:
an identifier ending in ".end" routes through the endings namespace and sets
`is_in_ending` (before the load is checked); otherwise the chapters
namespace is used and `current_chapter` / `is_in_ending` are updated (again
before the load is checked).  A truthy loaded document then replaces the
story and the scene identifier becomes `next_scene` as given (possibly
`none`); a falsy load only prints.  When `next_file` is falsy, control falls
to the `elif next_scene:` arm. -/
def navigate_to_scene {α : Type} (cs : ContentStore α) (gs : GameState α)
    (dest : Destination) : Option (GameState α × List String) :=
  match dest.next_file with
  | some nf =>
    if nf.isEmpty then navigate_scene_only cs gs dest.next_scene
    else if pyEndsWith nf ".end" then
      let gs1 := { gs with is_in_ending := true }
      match cs.endings nf with
      | some doc =>
        if doc.entries.isEmpty then some (gs1, ["Failed to load: " ++ nf])
        else
          some ({ gs1 with current_story := some doc, current_scene_id := dest.next_scene },
            [])
      | none => some (gs1, ["Failed to load: " ++ nf])
    else
      let gs1 := { gs with current_chapter := Sum.inl nf, is_in_ending := false }
      match cs.chapters nf with
      | some doc =>
        if doc.entries.isEmpty then some (gs1, ["Failed to load: " ++ nf])
        else
          some ({ gs1 with current_story := some doc, current_scene_id := dest.next_scene },
            [])
      | none => some (gs1, ["Failed to load: " ++ nf])
  | none => navigate_scene_only cs gs dest.next_scene

/-- The typewriter variables of the main loop (main.py lines 190-191):
`current_text_len` is the number of characters currently shown, `text_timer`
the seconds accumulated since the last reveal. -/
structure TypewriterState where
  current_text_len : Nat
  text_timer : ℚ
deriving DecidableEq

/-- The reset performed on every scene change (main.py lines 261-262,
287-288, 292-293, 302-303): both typewriter variables go back to 0. -/
def twReset : TypewriterState :=
  { current_text_len := 0, text_timer := 0 }

/-- The per-frame typewriter update (main.py lines 324-328): while the text
is not fully shown, add the frame delta to the timer; once the timer reaches
`text_speed`, reveal exactly one more character and set the timer back
to 0. -/
def tick (ts : TypewriterState) (dt : ℚ) (textLen : Nat) (text_speed : ℚ) :
    TypewriterState :=
  if ts.current_text_len < textLen then
    let t := ts.text_timer + dt
    if text_speed ≤ t then
      { current_text_len := ts.current_text_len + 1, text_timer := 0 }
    else
      { ts with text_timer := t }
  else ts

/-- The click-to-skip branch (main.py lines 273-275): a click while the text
is still typing shows all of it immediately. -/
def click_reveal_all (ts : TypewriterState) (textLen : Nat) : TypewriterState :=
  if ts.current_text_len < textLen then
    { ts with current_text_len := textLen }
  else ts

/-- Run a sequence of frame ticks (in order) against a fixed text length and
speed. -/
def runTicks (ts : TypewriterState) (deltas : List ℚ) (textLen : Nat)
    (text_speed : ℚ) : TypewriterState :=
  deltas.foldl (fun s d => tick s d textLen text_speed) ts

/-- The typewriter-affecting events between two resets: a frame tick or a
click while the text is typing. -/
inductive TwOp where
  | tick (dt : ℚ)
  | click
deriving DecidableEq

/-- Apply one typewriter event. -/
def applyOp (ts : TypewriterState) (op : TwOp) (textLen : Nat)
    (text_speed : ℚ) : TypewriterState :=
  match op with
  | TwOp.tick dt => tick ts dt textLen text_speed
  | TwOp.click => click_reveal_all ts textLen

/-- Run a sequence of typewriter events in order. -/
def runOps (ts : TypewriterState) (ops : List TwOp) (textLen : Nat)
    (text_speed : ℚ) : TypewriterState :=
  ops.foldl (fun s op => applyOp s op textLen text_speed) ts

/-- The dialogue text actually drawn (renderers.py line 225):
`scene_text[:current_text_len]`, the first `current_text_len` code points of
the raw scene text. -/
def visible_text (scene_text : String) (current_text_len : Nat) : String :=
  ⟨scene_text.data.take current_text_len⟩

/-- The click handler for a fully revealed score_check scene (main.py lines
284-288): evaluate the branch, navigate, then assign 0 to both typewriter
variables unconditionally (the previous typewriter state `_tw` is
discarded whatever the navigation outcome). -/
def score_check_click {α : Type} (cs : ContentStore α) (gs : GameState α)
    (scene : ScoreCheckScene) (_tw : TypewriterState) :
    Option (GameState α × TypewriterState × List String) :=
  match navigate_to_scene cs gs (evaluate_score_check gs.scores scene) with
  | some r => some (r.1, twReset, r.2)
  | none => none

/-- The click handler for a selected choice (main.py lines 248-269): apply
the choice's score delta when present, assign 0 to both typewriter variables
(discarding `_tw`), then navigate to the choice's destination. -/
def choice_click {α : Type} (cs : ContentStore α) (gs : GameState α)
    (choice : Choice) (_tw : TypewriterState) :
    Option (GameState α × TypewriterState × List String) :=
  let gs1 :=
    match choice.score_change with
    | some sc => { gs with scores := update_scores gs.scores sc }
    | none => gs
  match navigate_to_scene cs gs1
      { next_file := choice.next_file, next_scene := choice.next_scene } with
  | some r => some (r.1, twReset, r.2)
  | none => none

/-- The score_check scene of the spec's worked example: conditions
`[{charisma ≥ 5 → A}, {charisma ≥ 2 → B}]` with default destination C. -/
def exampleScoreScene : ScoreCheckScene :=
  { conditions :=
      [ { requirement := [("charisma", 5)], next_file := none, next_scene := some "A" }
      , { requirement := [("charisma", 2)], next_file := none, next_scene := some "B" } ]
    default_file := none
    default_scene := some "C" }

/-- A Content Store with no files at all: every load fails. -/
def csEmpty : ContentStore Unit :=
  { chapters := fun _ => none, endings := fun _ => none }

/-- A Content Store holding exactly one chapter file "2" whose story document
has the single scene "intro". -/
def csChapter2 : ContentStore Unit :=
  { chapters := fun s => if s == "2" then some ⟨[("intro", ())]⟩ else none
    endings := fun _ => none }

/-- A Content Store holding exactly one chapter file "ch2" whose story
document has the single scene "intro". -/
def csCh2 : ContentStore Unit :=
  { chapters := fun s => if s == "ch2" then some ⟨[("intro", ())]⟩ else none
    endings := fun _ => none }

/-- A concrete engine state: chapter "ch1" loaded, sitting on its scene "s1",
charisma 0, not in an ending. -/
def gsC1 : GameState Unit :=
  { scores := [("charisma", 0)]
    current_story := some ⟨[("s1", ())]⟩
    current_scene_id := some "s1"
    current_chapter := Sum.inl "ch1"
    is_in_ending := false }

/-- A score_check scene with no conditions whose default destination names
the chapter file "ch2". -/
def scDefaultCh2 : ScoreCheckScene :=
  { conditions := [], default_file := some "ch2", default_scene := some "start" }

/-- First-match behaviour of `List.find?`: if position `i` holds a matching
element and every earlier position fails the predicate, `find?` returns it. -/
theorem find?_first_match {β : Type} (p : β → Bool) :
    ∀ (l : List β) (i : Nat) (c : β), l[i]? = some c → p c = true →
      (∀ j c', j < i → l[j]? = some c' → p c' = false) →
      l.find? p = some c := by
  intro l
  induction l with
  | nil => intro i c h _ _; simp at h
  | cons a t ih =>
    intro i c h hc hprev
    cases i with
    | zero =>
      simp at h
      subst h
      simp [List.find?_cons_of_pos, hc]
    | succ i =>
      have ha : p a = false := hprev 0 a (Nat.succ_pos i) (by simp)
      rw [List.find?_cons_of_neg _ (by simp [ha])]
      exact ih i c (by simpa using h) hc
        (fun j c' hj hg => hprev (j + 1) c' (by omega) (by simpa using hg))

/-- C7: `check_requirements` returns true iff every listed stat's Ledger
value (missing stats reading as 0) is at least its threshold; the empty
requirement map is vacuously satisfied by every Ledger. -/
theorem c7_check_requirements_spec (scores requirements : List (String × Int)) :
    (check_requirements scores requirements = true ↔
      ∀ p ∈ requirements, p.2 ≤ dictGet scores p.1)
    ∧ check_requirements scores [] = true := by
  constructor
  · simp [check_requirements]
  · rfl

/-- C7 witness: a Ledger with charisma 3 satisfies the requirement map
`{charisma: 2}` and fails `{charisma: 5}`. -/
theorem c7_witness :
    check_requirements [("charisma", 3)] [("charisma", 2)] = true
    ∧ check_requirements [("charisma", 3)] [("charisma", 5)] ≠ true := by
  constructor
  · exact (c7_check_requirements_spec [("charisma", 3)] [("charisma", 2)]).1.mpr
      (by decide)
  · intro h
    have := (c7_check_requirements_spec [("charisma", 3)] [("charisma", 5)]).1.mp h
      ("charisma", 5) (by decide)
    revert this
    decide

/-- C6: the Branch Evaluator scans a score_check scene's conditions in
declared order and returns the destination of the first whose requirement map
the scores satisfy; if none is satisfied it returns the scene's default
destination.  On the spec's example (conditions charisma ≥ 5 → A then
charisma ≥ 2 → B, default C): charisma 5 yields A, 3 yields B, 0 yields C. -/
theorem c6_score_check_first_match (scores : List (String × Int))
    (sc : ScoreCheckScene) :
    (∀ (i : Nat) (c : Condition), sc.conditions[i]? = some c →
      check_requirements scores c.requirement = true →
      (∀ (j : Nat) (c' : Condition), j < i → sc.conditions[j]? = some c' →
        check_requirements scores c'.requirement = false) →
      evaluate_score_check scores sc =
        { next_file := c.next_file, next_scene := some (c.next_scene.getD "start") })
    ∧ ((∀ c ∈ sc.conditions, check_requirements scores c.requirement = false) →
      evaluate_score_check scores sc =
        { next_file := sc.default_file
          next_scene := some (sc.default_scene.getD "start") })
    ∧ evaluate_score_check [("charisma", 5)] exampleScoreScene =
        { next_file := none, next_scene := some "A" }
    ∧ evaluate_score_check [("charisma", 3)] exampleScoreScene =
        { next_file := none, next_scene := some "B" }
    ∧ evaluate_score_check [("charisma", 0)] exampleScoreScene =
        { next_file := none, next_scene := some "C" } := by
  refine ⟨?_, ?_, by decide, by decide, by decide⟩
  · intro i c hi hc hprev
    have hf : sc.conditions.find?
        (fun c => check_requirements scores c.requirement) = some c :=
      find?_first_match _ sc.conditions i c hi hc hprev
    simp [evaluate_score_check, hf]
  · intro hall
    have hf : sc.conditions.find?
        (fun c => check_requirements scores c.requirement) = none := by
      rw [List.find?_eq_none]
      intro x hx
      simp [hall x hx]
    simp [evaluate_score_check, hf]

/-- C6 witness: the first-match clause applied to the example scene with a
Ledger holding charisma 3 (the first condition fails, the second matches). -/
theorem c6_witness :
    evaluate_score_check [("charisma", 3)] exampleScoreScene =
      { next_file := none, next_scene := some "B" } :=
  (c6_score_check_first_match [("charisma", 3)] exampleScoreScene).1 1
    { requirement := [("charisma", 2)], next_file := none, next_scene := some "B" }
    (by decide) (by decide)
    (by
      intro j c' hj hg
      have hj0 : j = 0 := by omega
      subst hj0
      have hc' : c' = ⟨[("charisma", 5)], none, some "A"⟩ := by
        simpa [exampleScoreScene] using hg.symm
      subst hc'
      decide)

/-- C10: when a score_check condition or default, or a checkpoint pass/fail
branch, omits its `next_scene` field, the Branch Evaluator substitutes the
literal scene identifier "start" (whichever branch is taken). -/
theorem c10_omitted_next_scene_defaults_to_start
    (scores req cpreq : List (String × Int)) (f g pf ff : Option String) :
    (evaluate_score_check scores
      { conditions := [{ requirement := req, next_file := f, next_scene := none }]
        default_file := g
        default_scene := none }).next_scene = some "start"
    ∧ (evaluate_checkpoint scores
      { requirements := cpreq, pass_file := pf, pass_scene := none
        fail_file := ff, fail_scene := none }).next_scene = some "start" := by
  constructor
  · cases h : check_requirements scores req <;>
      simp [evaluate_score_check, List.find?, h]
  · unfold evaluate_checkpoint
    split <;> rfl

/-- One typewriter event never decreases the revealed count. -/
theorem applyOp_mono (ts : TypewriterState) (op : TwOp) (L : Nat) (sp : ℚ) :
    ts.current_text_len ≤ (applyOp ts op L sp).current_text_len := by
  cases op with
  | tick dt =>
    simp only [applyOp, tick]
    split
    · split
      · exact Nat.le_succ _
      · exact Nat.le_refl _
    · exact Nat.le_refl _
  | click =>
    simp only [applyOp, click_reveal_all]
    split
    · rename_i h
      exact Nat.le_of_lt h
    · exact Nat.le_refl _

/-- One typewriter event keeps the revealed count within the text length. -/
theorem applyOp_bound (ts : TypewriterState) (op : TwOp) (L : Nat) (sp : ℚ)
    (h : ts.current_text_len ≤ L) :
    (applyOp ts op L sp).current_text_len ≤ L := by
  cases op with
  | tick dt =>
    simp only [applyOp, tick]
    split
    · rename_i hlt
      split
      · exact hlt
      · exact h
    · exact h
  | click =>
    simp only [applyOp, click_reveal_all]
    split
    · exact Nat.le_refl _
    · exact h

/-- A sequence of typewriter events never decreases the revealed count. -/
theorem runOps_mono (ops : List TwOp) :
    ∀ (ts : TypewriterState) (L : Nat) (sp : ℚ),
      ts.current_text_len ≤ (runOps ts ops L sp).current_text_len := by
  induction ops with
  | nil => intro ts L sp; exact Nat.le_refl _
  | cons op t ih =>
    intro ts L sp
    have h2 := ih (applyOp ts op L sp) L sp
    exact Nat.le_trans (applyOp_mono ts op L sp) h2

/-- A sequence of typewriter events keeps the revealed count bounded by the
text length. -/
theorem runOps_bound (ops : List TwOp) :
    ∀ (ts : TypewriterState) (L : Nat) (sp : ℚ), ts.current_text_len ≤ L →
      (runOps ts ops L sp).current_text_len ≤ L := by
  induction ops with
  | nil => intro ts L sp h; exact h
  | cons op t ih =>
    intro ts L sp h
    exact ih (applyOp ts op L sp) L sp (applyOp_bound ts op L sp h)

/-- Running a concatenation of event sequences is sequential composition. -/
theorem runOps_append (ts : TypewriterState) (ops1 ops2 : List TwOp) (L : Nat)
    (sp : ℚ) :
    runOps ts (ops1 ++ ops2) L sp = runOps (runOps ts ops1 L sp) ops2 L sp := by
  simp [runOps, List.foldl_append]

/-- A click while the text is typing always lands exactly on a fully revealed
state, provided the revealed count was in bounds. -/
theorem click_reveal_all_eq (ts : TypewriterState) (L : Nat)
    (h : ts.current_text_len ≤ L) :
    (click_reveal_all ts L).current_text_len = L := by
  simp only [click_reveal_all]
  split
  · rfl
  · rename_i hlt
    omega

/-- C9: between two typewriter resets, the revealed count is monotonically
non-decreasing across every sequence of frame ticks and click-skips, and
stays within `0 ≤ revealed ≤ length of the displayable text` (the display
text is the raw scene text — there are no markers to strip); a fully
revealed state absorbs further ticks, in particular any tick after a
click-skip leaves the state unchanged. -/
theorem c9_typewriter_invariants (ops more : List TwOp) (L : Nat)
    (sp t dt : ℚ) :
    0 ≤ (runOps twReset ops L sp).current_text_len
    ∧ (runOps twReset ops L sp).current_text_len ≤ L
    ∧ (runOps twReset ops L sp).current_text_len ≤
        (runOps twReset (ops ++ more) L sp).current_text_len
    ∧ tick { current_text_len := L, text_timer := t } dt L sp =
        { current_text_len := L, text_timer := t }
    ∧ runOps twReset (ops ++ [TwOp.click, TwOp.tick dt]) L sp =
        runOps twReset (ops ++ [TwOp.click]) L sp := by
  refine ⟨Nat.zero_le _, runOps_bound ops twReset L sp (Nat.zero_le L), ?_, ?_, ?_⟩
  · rw [runOps_append]
    exact runOps_mono more _ L sp
  · simp [tick]
  · rw [runOps_append, runOps_append]
    have hb : (runOps twReset ops L sp).current_text_len ≤ L :=
      runOps_bound ops twReset L sp (Nat.zero_le L)
    have hc : (click_reveal_all (runOps twReset ops L sp) L).current_text_len = L :=
      click_reveal_all_eq _ L hb
    show applyOp (applyOp _ TwOp.click L sp) (TwOp.tick dt) L sp =
      applyOp _ TwOp.click L sp
    simp [applyOp, tick, hc]

/-- C2 counterexample: with text length 2 and speed 1, a single tick whose
delta 10 exceeds `length * speed = 2` reveals only one character and zeroes
the timer (the residual 9 is discarded), so the revealed count does not
reach the text length as the claim requires. -/
theorem c2_counterexample :
    (2 : ℚ) * 1 < 10
    ∧ runTicks twReset [(10 : ℚ)] 2 1 = { current_text_len := 1, text_timer := 0 }
    ∧ (runTicks twReset [(10 : ℚ)] 2 1).current_text_len ≠ 2 := by
  have h : runTicks twReset [(10 : ℚ)] 2 1 = { current_text_len := 1, text_timer := 0 } := by
    norm_num [runTicks, tick, twReset]
  refine ⟨by norm_num, h, ?_⟩
  rw [h]
  decide

/-- When every delta is at least the speed, ticks reveal one character each
until the text is exhausted, the timer returning to 0 every frame. -/
theorem runTicks_all_fast (sp : ℚ) (L : Nat) :
    ∀ (deltas : List ℚ) (k : Nat), k ≤ L → (∀ d ∈ deltas, sp ≤ d) →
      runTicks { current_text_len := k, text_timer := 0 } deltas L sp =
        { current_text_len := min (k + deltas.length) L, text_timer := 0 } := by
  intro deltas
  induction deltas with
  | nil =>
    intro k hk _
    have hmin : min (k + ([] : List ℚ).length) L = k := by
      simp
      omega
    rw [hmin]
    rfl
  | cons d ds ih =>
    intro k hk hall
    have hd : sp ≤ d := hall d (by simp)
    have hstep : runTicks { current_text_len := k, text_timer := 0 } (d :: ds) L sp =
        runTicks (tick { current_text_len := k, text_timer := 0 } d L sp) ds L sp := rfl
    by_cases hkL : k < L
    · have ht : tick { current_text_len := k, text_timer := 0 } d L sp =
          { current_text_len := k + 1, text_timer := 0 } := by
        simp [tick, hkL, hd]
      rw [hstep, ht, ih (k + 1) hkL (fun x hx => hall x (by simp [hx]))]
      have hmin : min (k + 1 + ds.length) L = min (k + (d :: ds).length) L := by
        simp
        omega
      rw [hmin]
    · have hkeq : k = L := by omega
      have ht : tick { current_text_len := k, text_timer := 0 } d L sp =
          { current_text_len := k, text_timer := 0 } := by
        simp [tick, hkL]
      rw [hstep, ht, ih k hk (fun x hx => hall x (by simp [hx]))]
      have hmin : min (k + ds.length) L = min (k + (d :: ds).length) L := by
        simp
        omega
      rw [hmin]

/-- C2 amended: a tick adds the frame delta to the timer and, when the timer
has reached the speed, reveals exactly one character and assigns 0 to the
timer — the residual is discarded, not carried over, and a single large delta
reveals at most one character.  Deltas summing past `length * speed` are
therefore not enough; instead, full reveal is guaranteed once at least
`length` ticks occur each of whose deltas is at least the speed (the
displayable text is the raw text — there are no pause markers). -/
theorem c2_one_reveal_per_tick (deltas : List ℚ) (L : Nat) (sp dt : ℚ)
    (ts : TypewriterState)
    (hall : ∀ d ∈ deltas, sp ≤ d) (hlen : L ≤ deltas.length) :
    (runTicks twReset deltas L sp).current_text_len = L
    ∧ (tick ts dt L sp).current_text_len ≤ ts.current_text_len + 1
    ∧ ((tick ts dt L sp).current_text_len = ts.current_text_len + 1 →
        (tick ts dt L sp).text_timer = 0) := by
  refine ⟨?_, ?_, ?_⟩
  · have h := runTicks_all_fast sp L deltas 0 (Nat.zero_le L) hall
    rw [show twReset = { current_text_len := 0, text_timer := 0 } from rfl, h]
    simp
    omega
  · simp only [tick]
    split
    · split
      · exact Nat.le_refl _
      · exact Nat.le_succ _
    · exact Nat.le_succ _
  · simp only [tick]
    split
    · split
      · intro _
        rfl
      · intro h
        simp at h
    · intro h
      simp at h

/-- C2 witness: text length 2, speed 1, two ticks of delta 1 each fully
reveal the text, and a tick from revealed count 0 reveals at most one
character. -/
theorem c2_witness :
    (runTicks twReset [(1 : ℚ), 1] 2 1).current_text_len = 2
    ∧ (tick twReset (10 : ℚ) 2 1).current_text_len ≤ 1 :=
  ⟨(c2_one_reveal_per_tick [(1 : ℚ), 1] 2 1 10 twReset (by simp) (by decide)).1,
   (c2_one_reveal_per_tick [(1 : ℚ), 1] 2 1 10 twReset (by simp) (by decide)).2.1⟩

/-- C3 counterexample: with raw text "a|b" (the pause marker '|' at revealed
index 1) and base speed 1/10, a tick of exactly 1/10 seconds reveals the
next character — the effective delay at the marker is the base speed, not a
longer fixed pause (a delta of 1/20 below the base speed reveals nothing) —
and the rendered string contains the marker, which is never stripped. -/
theorem c3_counterexample :
    "a|b".data[1]? = some '|'
    ∧ "a|b".length = 3
    ∧ tick { current_text_len := 1, text_timer := 0 } (1 / 10) 3 (1 / 10) =
        { current_text_len := 2, text_timer := 0 }
    ∧ tick { current_text_len := 1, text_timer := 0 } (1 / 20) 3 (1 / 10) =
        { current_text_len := 1, text_timer := 1 / 20 }
    ∧ (visible_text "a|b" 3).data.contains '|' = true := by
  refine ⟨by decide, by decide, by norm_num [tick], by norm_num [tick], by decide⟩

/-- C3 amended: the engine has no pause-marker handling.  The per-character
delay is the base text speed at every index regardless of the character
there — the typewriter consults only the text's length, never its
characters — and the rendered string is the raw prefix of the scene text, so
at full reveal it equals the raw text with nothing stripped. -/
theorem c3_no_pause_markers (k L : Nat) (dt sp : ℚ) (text : String)
    (h : k < L) :
    tick { current_text_len := k, text_timer := 0 } dt L sp =
      (if sp ≤ dt then { current_text_len := k + 1, text_timer := 0 }
       else { current_text_len := k, text_timer := dt })
    ∧ visible_text text text.length = text := by
  constructor
  · simp [tick, h]
  · cases text with
    | mk data =>
      simp [visible_text, String.length]

/-- C3 witness: from revealed count 1 out of 3 (the marker position of
"a|b"), a tick of 3/10 at base speed 1/10 reveals one character, and the
fully revealed rendering of "a|b" is "a|b" itself. -/
theorem c3_witness :
    tick { current_text_len := 1, text_timer := 0 } (3 / 10) 3 (1 / 10) =
      { current_text_len := 2, text_timer := 0 }
    ∧ visible_text "a|b" ("a|b".length) = "a|b" := by
  have h := c3_no_pause_markers 1 3 (3 / 10) (1 / 10) "a|b" (by decide)
  refine ⟨?_, h.2⟩
  rw [h.1]
  norm_num

/-- The same-file arm of navigation neither reads nor writes the score
dictionary: its behaviour on a state with scores replaced by `s2` is its
behaviour on the original state, with scores `s2` spliced into the result. -/
theorem navigate_scene_only_scores {α : Type} (cs : ContentStore α)
    (gs : GameState α) (ns? : Option String) (s2 : List (String × Int)) :
    navigate_scene_only cs { gs with scores := s2 } ns? =
      (navigate_scene_only cs gs ns?).map
        (fun r => ({ r.1 with scores := s2 }, r.2)) := by
  cases ns? with
  | none => rfl
  | some ns =>
    simp only [navigate_scene_only]
    by_cases h1 : ns.isEmpty
    · simp [h1]
    · simp only [h1, if_false]
      by_cases h2 : pyStartsWith ns "chapter_"
      · simp only [h2, if_true]
        rcases hp : pyInt (((pySplit '_' ns).getD 1 "")) with _ | n
        · simp [hp]
        · simp only [hp]
          rcases hc : cs.chapters (toString n) with _ | doc
          · simp [hc]
          · simp only [hc]
            by_cases h3 : doc.entries.isEmpty
            · simp [h3]
            · simp only [h3, if_false]
              rcases hh : doc.entries.head? with _ | e
              · simp [hh]
              · simp [hh]
      · simp [h2]

/-- Navigation neither reads nor writes the score dictionary. -/
theorem navigate_to_scene_scores {α : Type} (cs : ContentStore α)
    (gs : GameState α) (dest : Destination) (s2 : List (String × Int)) :
    navigate_to_scene cs { gs with scores := s2 } dest =
      (navigate_to_scene cs gs dest).map
        (fun r => ({ r.1 with scores := s2 }, r.2)) := by
  cases hf : dest.next_file with
  | none =>
    simp only [navigate_to_scene, hf]
    exact navigate_scene_only_scores cs gs dest.next_scene s2
  | some nf =>
    simp only [navigate_to_scene, hf]
    by_cases h1 : nf.isEmpty
    · simp only [h1, if_true]
      exact navigate_scene_only_scores cs gs dest.next_scene s2
    · simp only [h1, if_false]
      by_cases h2 : pyEndsWith nf ".end"
      · simp only [h2, if_true]
        rcases he : cs.endings nf with _ | doc
        · simp [he]
        · simp only [he]
          by_cases h3 : doc.entries.isEmpty
          · simp [h3]
          · simp [h3]
      · simp only [h2, if_false]
        rcases hc : cs.chapters nf with _ | doc
        · simp [hc]
        · simp only [hc]
          by_cases h3 : doc.entries.isEmpty
          · simp [h3]
          · simp [h3]

/-- C8: the Score Ledger is untouched by every navigation, same-file or
cross-file, successful or failed: navigation's outcome does not depend on
the scores (it only carries them through unchanged), any navigation result
keeps the exact score dictionary of the input state, and a choice's score
delta, once applied by the choice-click handler, is never rolled back even
when the subsequent navigation fails to load its file. -/
theorem c8_navigation_never_touches_ledger {α : Type} (cs : ContentStore α)
    (gs : GameState α) (dest : Destination) (s2 sc : List (String × Int))
    (choice : Choice) (tw : TypewriterState) :
    (navigate_to_scene cs { gs with scores := s2 } dest =
      (navigate_to_scene cs gs dest).map
        (fun r => ({ r.1 with scores := s2 }, r.2)))
    ∧ (∀ r, navigate_to_scene cs gs dest = some r → r.1.scores = gs.scores)
    ∧ (∀ r, choice.score_change = some sc → choice_click cs gs choice tw = some r →
        r.1.scores = update_scores gs.scores sc) := by
  refine ⟨navigate_to_scene_scores cs gs dest s2, ?_, ?_⟩
  · intro r hr
    have h := navigate_to_scene_scores cs gs dest gs.scores
    rw [show ({ gs with scores := gs.scores } : GameState α) = gs from rfl, hr] at h
    simp only [Option.map_some'] at h
    have h2 := Option.some.inj h
    conv_lhs => rw [h2]
  · intro r hsc hclick
    have hgs1 : ({ gs with scores := update_scores gs.scores sc } : GameState α).scores =
        update_scores gs.scores sc := rfl
    simp only [choice_click, hsc] at hclick
    cases hnav : navigate_to_scene cs { gs with scores := update_scores gs.scores sc }
        { next_file := choice.next_file, next_scene := choice.next_scene } with
    | none => rw [hnav] at hclick; exact absurd hclick (by simp)
    | some r' =>
      rw [hnav] at hclick
      simp only [Option.some_inj] at hclick
      have hfr : r'.1.scores = update_scores gs.scores sc := by
        have h := navigate_to_scene_scores cs gs
          { next_file := choice.next_file, next_scene := choice.next_scene }
          (update_scores gs.scores sc)
        rw [hnav] at h
        cases hnav2 : navigate_to_scene cs gs
            { next_file := choice.next_file, next_scene := choice.next_scene } with
        | none => rw [hnav2] at h; exact absurd h (by simp)
        | some r0 =>
          rw [hnav2] at h
          simp only [Option.map_some'] at h
          have h2 := Option.some.inj h
          rw [h2]
      rw [← hclick]
      exact hfr

/-- C8 witness: with an empty Content Store, navigating a concrete state to a
missing chapter file preserves its score dictionary, and a choice applying
charisma +2 keeps the applied delta even though its navigation fails. -/
theorem c8_witness :
    (∀ r, navigate_to_scene csEmpty gsC1
        { next_file := some "ch2", next_scene := some "start" } = some r →
      r.1.scores = gsC1.scores)
    ∧ (∀ r, choice_click csEmpty gsC1
        { score_change := some [("charisma", 2)], next_file := some "ch2",
          next_scene := some "start" } twReset = some r →
      r.1.scores = update_scores gsC1.scores [("charisma", 2)]) :=
  ⟨(c8_navigation_never_touches_ledger csEmpty gsC1
      { next_file := some "ch2", next_scene := some "start" } [] [("charisma", 2)]
      { score_change := some [("charisma", 2)], next_file := some "ch2",
        next_scene := some "start" } twReset).2.1,
   fun r hr =>
    (c8_navigation_never_touches_ledger csEmpty gsC1
      { next_file := some "ch2", next_scene := some "start" } [] [("charisma", 2)]
      { score_change := some [("charisma", 2)], next_file := some "ch2",
        next_scene := some "start" } twReset).2.2 r rfl hr⟩

/-- C1 amended: navigating to a `next_file` the Content Store reports as not
found leaves the current scene identifier, story document and Score Ledger
unchanged and surfaces a reportable error message, but the rejection is not
full: the file identity has already been mutated before the load result is
checked — for a chapter file, `current_chapter` becomes the requested file
and the ending flag is cleared; for an ending file, the ending flag is set —
and the calling click handler resets the reveal count unconditionally. -/
theorem c1_failed_load_partial_mutation {α : Type} (cs : ContentStore α)
    (gs : GameState α) (nf : String) (ns : Option String)
    (h0 : ¬nf.isEmpty) :
    (¬pyEndsWith nf ".end" → storyTruthy (cs.chapters nf) = false →
      navigate_to_scene cs gs { next_file := some nf, next_scene := ns } =
        some ({ gs with current_chapter := Sum.inl nf, is_in_ending := false },
          ["Failed to load: " ++ nf]))
    ∧ (pyEndsWith nf ".end" → storyTruthy (cs.endings nf) = false →
      navigate_to_scene cs gs { next_file := some nf, next_scene := ns } =
        some ({ gs with is_in_ending := true }, ["Failed to load: " ++ nf])) := by
  constructor
  · intro h2 hload
    simp only [navigate_to_scene, h0, if_false, h2]
    rcases hc : cs.chapters nf with _ | doc
    · simp
    · rw [hc] at hload
      simp only [storyTruthy, Bool.not_eq_false'] at hload
      simp [hload]
  · intro h2 hload
    simp only [navigate_to_scene, h0, if_false, h2, if_true]
    rcases he : cs.endings nf with _ | doc
    · simp
    · rw [he] at hload
      simp only [storyTruthy, Bool.not_eq_false'] at hload
      simp [hload]

/-- C1 witness: with an empty Content Store, navigating the concrete state
`gsC1` to the missing chapter file "ch2" yields the partially mutated state
and the error message. -/
theorem c1_witness :
    navigate_to_scene csEmpty gsC1 { next_file := some "ch2", next_scene := some "start" } =
      some ({ gsC1 with current_chapter := Sum.inl "ch2", is_in_ending := false },
        ["Failed to load: ch2"]) :=
  (c1_failed_load_partial_mutation csEmpty gsC1 "ch2" (some "start") (by decide)).1
    (by decide) rfl

/-- C1 counterexample: the claim that a navigation to a missing file leaves
scene identifier, file identity and reveal count all unchanged is false.
A click on a fully revealed score_check scene whose default destination
names the missing chapter file "ch2", starting from state `gsC1` (chapter
"ch1", scene "s1", reveal count 5): the scene identifier survives, but
`current_chapter` becomes "ch2" and the reveal count is reset to 0. -/
theorem c1_counterexample :
    score_check_click csEmpty gsC1 scDefaultCh2
        { current_text_len := 5, text_timer := 0 } =
      some ({ scores := [("charisma", 0)]
              current_story := some ⟨[("s1", ())]⟩
              current_scene_id := some "s1"
              current_chapter := Sum.inl "ch2"
              is_in_ending := false },
        { current_text_len := 0, text_timer := 0 },
        ["Failed to load: ch2"])
    ∧ (Sum.inl "ch2" : String ⊕ Int) ≠ gsC1.current_chapter
    ∧ (0 : Nat) ≠ 5 := by
  refine ⟨?_, by decide, by decide⟩
  rfl

/-- C4 amended: a destination with `next_file` absent and `next_scene` set
stays within the current Story Document — only the scene identifier is
updated — unless `next_scene` starts with "chapter_": then the engine parses
the numeric suffix and loads that chapter file from the Content Store,
replacing the document, setting `current_chapter` to the parsed number and
the scene identifier to the loaded document's first key. -/
theorem c4_same_file_unless_chapter_jump {α : Type} (cs : ContentStore α)
    (gs : GameState α) (ns : String) (n : Int) (doc : StoryDocument α)
    (k : String) (a : α) (rest : List (String × α)) :
    (¬ns.isEmpty → ¬pyStartsWith ns "chapter_" →
      navigate_to_scene cs gs { next_file := none, next_scene := some ns } =
        some ({ gs with current_scene_id := some ns }, []))
    ∧ (¬ns.isEmpty → pyStartsWith ns "chapter_" →
      pyInt (((pySplit '_' ns).getD 1 "")) = some n →
      cs.chapters (toString n) = some doc →
      doc.entries = (k, a) :: rest →
      navigate_to_scene cs gs { next_file := none, next_scene := some ns } =
        some ({ gs with
                  current_chapter := Sum.inr n
                  current_story := some doc
                  current_scene_id := some k
                  is_in_ending := false }, [])) := by
  constructor
  · intro h1 h2
    simp [navigate_to_scene, navigate_scene_only, h1, h2]
  · intro h1 h2 hp hc hd
    simp only [navigate_to_scene, navigate_scene_only, h1, if_false, h2, if_true]
    rw [hp]
    simp only [hc, hd]
    simp

/-- C4 witness: both arms at concrete inputs — navigating to plain scene
"s2" only changes the scene identifier, while navigating to "chapter_2"
against a store holding chapter "2" loads and replaces the document. -/
theorem c4_witness :
    navigate_to_scene csChapter2 gsC1 { next_file := none, next_scene := some "s2" } =
      some ({ gsC1 with current_scene_id := some "s2" }, [])
    ∧ navigate_to_scene csChapter2 gsC1
        { next_file := none, next_scene := some "chapter_2" } =
      some ({ gsC1 with
                current_chapter := Sum.inr 2
                current_story := some ⟨[("intro", ())]⟩
                current_scene_id := some "intro"
                is_in_ending := false }, []) :=
  ⟨(c4_same_file_unless_chapter_jump csChapter2 gsC1 "s2" 2 ⟨[("intro", ())]⟩
      "intro" () []).1 (by decide) (by decide),
   (c4_same_file_unless_chapter_jump csChapter2 gsC1 "chapter_2" 2 ⟨[("intro", ())]⟩
      "intro" () []).2 (by decide) (by decide) rfl rfl rfl⟩

/-- C4 counterexample: the claim that a destination with `next_file` absent
and `next_scene` set never loads a file or replaces the document is false:
with `next_scene = "chapter_2"` and `next_file` absent, chapter file "2" is
loaded, the story document is replaced and the chapter identity changes. -/
theorem c4_counterexample :
    navigate_to_scene csChapter2 gsC1
        { next_file := none, next_scene := some "chapter_2" } =
      some ({ scores := [("charisma", 0)]
              current_story := some ⟨[("intro", ())]⟩
              current_scene_id := some "intro"
              current_chapter := Sum.inr 2
              is_in_ending := false }, [])
    ∧ some (⟨[("intro", ())]⟩ : StoryDocument Unit) ≠ gsC1.current_story
    ∧ (Sum.inr 2 : String ⊕ Int) ≠ gsC1.current_chapter := by
  refine ⟨?_, by decide, by decide⟩
  rfl

/-- C5 amended: when a navigation's `next_file` is set (and truthy) and the
load succeeds, the new scene identifier is exactly `destination.next_scene`
as given — including unset: when `next_scene` is absent the scene identifier
becomes `None` rather than the loaded document's canonical start identifier,
and the engine subsequently finds no valid scene. -/
theorem c5_scene_id_is_exactly_next_scene {α : Type} (cs : ContentStore α)
    (gs : GameState α) (nf : String) (ns : Option String) (doc : StoryDocument α)
    (h0 : ¬nf.isEmpty) :
    (¬pyEndsWith nf ".end" → cs.chapters nf = some doc → ¬doc.entries.isEmpty →
      navigate_to_scene cs gs { next_file := some nf, next_scene := ns } =
        some ({ gs with
                  current_chapter := Sum.inl nf
                  is_in_ending := false
                  current_story := some doc
                  current_scene_id := ns }, []))
    ∧ (pyEndsWith nf ".end" → cs.endings nf = some doc → ¬doc.entries.isEmpty →
      navigate_to_scene cs gs { next_file := some nf, next_scene := ns } =
        some ({ gs with
                  is_in_ending := true
                  current_story := some doc
                  current_scene_id := ns }, [])) := by
  constructor
  · intro h2 hc hne
    simp only [navigate_to_scene, h0, if_false, h2, hc]
    simp [hne]
  · intro h2 he hne
    simp only [navigate_to_scene, h0, if_false, h2, if_true, he]
    simp [hne]

/-- C5 witness: loading chapter "ch2" with `next_scene = "s2"` lands on scene
"s2". -/
theorem c5_witness :
    navigate_to_scene csCh2 gsC1 { next_file := some "ch2", next_scene := some "s2" } =
      some ({ gsC1 with
                current_chapter := Sum.inl "ch2"
                is_in_ending := false
                current_story := some ⟨[("intro", ())]⟩
                current_scene_id := some "s2" }, []) :=
  (c5_scene_id_is_exactly_next_scene csCh2 gsC1 "ch2" (some "s2") ⟨[("intro", ())]⟩
      (by decide)).1 (by decide) rfl (by decide)

/-- C5 counterexample: the claim that a successful cross-file navigation
without `next_scene` lands on the document's canonical start identifier
(never leaving the scene identifier unset) is false: loading "ch2" (first
key "intro") with `next_scene` absent leaves the scene identifier `none`. -/
theorem c5_counterexample :
    navigate_to_scene csCh2 gsC1 { next_file := some "ch2", next_scene := none } =
      some ({ scores := [("charisma", 0)]
              current_story := some ⟨[("intro", ())]⟩
              current_scene_id := none
              current_chapter := Sum.inl "ch2"
              is_in_ending := false }, [])
    ∧ (⟨[("intro", ())]⟩ : StoryDocument Unit).entries.head?.map Prod.fst = some "intro"
    ∧ (none : Option String) ≠ some "intro" := by
  refine ⟨?_, by decide, by decide⟩
  rfl

end Torima
